import Mathlib

/-!
Verification of the Transcripator bot (src/main.py): a shallow embedding of
the pure chunking function `split_message` and of the orchestration handler
`process_audio`, together with theorems about the spec's claims.

Texts are modelled as `List Char` (Python `str`).  Remote operations
(Telegram file download, Groq transcription / refinement / summarization) are
modelled by an oracle environment `Env` giving each call's result — either a
value or a raised exception carrying its textual description — and
`process_audio` returns the ordered list of observable events (replies sent,
temp-file creation and deletion, remote calls made) plus whether the handler
returns normally or lets an exception escape.
-/

namespace Transcripator

/-- `MAX_FILE_SIZE = 25 * 1024 * 1024` (src/main.py line 25). -/
def MAX_FILE_SIZE : Nat := 25 * 1024 * 1024

/-- `MAX_MESSAGE_LENGTH = 4096` (src/main.py line 26). -/
def MAX_MESSAGE_LENGTH : Nat := 4096

/-- `split_message` (src/main.py lines 36–38):
`[message[i : i + max_length] for i in range(0, len(message), max_length)]`.
`range(0, n, L)` for `L > 0` has `(n + L - 1) / L` elements `0, L, 2L, …`,
and `message[i : i + L]` is `(message.drop i).take L`. -/
def split_message (message : List Char) (max_length : Nat) : List (List Char) :=
  (List.range' 0 ((message.length + max_length - 1) / max_length) max_length).map
    (fun i => (message.drop i).take max_length)

theorem split_message_nil (L : Nat) : split_message [] L = [] := by
  cases L with
  | zero => rfl
  | succ n =>
    have h : n / (n + 1) = 0 := Nat.div_eq_of_lt (Nat.lt_succ_self n)
    simp [split_message, h]

theorem range'_map_slice (s : List Char) (L : Nat) :
    ∀ (m a : Nat), (List.range' (a + L) m L).map (fun i => (s.drop i).take L)
      = (List.range' a m L).map (fun i => (((s.drop L).drop i).take L)) := by
  intro m
  induction m with
  | zero => intro a; rfl
  | succ k ih =>
    intro a
    rw [List.range'_succ, List.range'_succ, List.map_cons, List.map_cons]
    refine congrArg₂ _ ?_ (ih (a + L))
    rw [List.drop_drop, Nat.add_comm a L]

theorem split_message_cons (s : List Char) (L : Nat) (hL : 0 < L) (hs : s ≠ []) :
    split_message s L = s.take L :: split_message (s.drop L) L := by
  have hlen : 1 ≤ s.length := List.length_pos.mpr hs
  have hn : (s.length + L - 1) / L = (s.length - 1) / L + 1 := by
    have h1 : s.length + L - 1 = (s.length - 1) + L := by omega
    rw [h1, Nat.add_div_right _ hL]
  have hm : ((s.drop L).length + L - 1) / L = (s.length - 1) / L := by
    rw [List.length_drop]
    rcases le_or_lt L s.length with h | h
    · congr 1
      omega
    · have h1 : s.length - L = 0 := by omega
      have h2 : (0 + L - 1) / L = 0 := Nat.div_eq_of_lt (by omega)
      have h3 : (s.length - 1) / L = 0 := Nat.div_eq_of_lt (by omega)
      rw [h1, h2, h3]
  unfold split_message
  rw [hn, List.range'_succ, List.map_cons, List.drop_zero, hm,
    range'_map_slice s L ((s.length - 1) / L) 0]

theorem split_message_flatten (L : Nat) (hL : 0 < L) :
    ∀ (n : Nat) (s : List Char), s.length ≤ n → (split_message s L).flatten = s := by
  intro n
  induction n with
  | zero =>
    intro s hs
    have h : s = [] := List.eq_nil_of_length_eq_zero (Nat.le_zero.mp hs)
    rw [h, split_message_nil]
    rfl
  | succ k ih =>
    intro s hs
    by_cases h : s = []
    · rw [h, split_message_nil]
      rfl
    · have h1 : 1 ≤ s.length := List.length_pos.mpr h
      rw [split_message_cons s L hL h, List.flatten_cons,
        ih (s.drop L) (by rw [List.length_drop]; omega), List.take_append_drop]

theorem split_message_length_le (s : List Char) (L : Nat) :
    ∀ c ∈ split_message s L, c.length ≤ L := by
  intro c hc
  unfold split_message at hc
  rw [List.mem_map] at hc
  obtain ⟨i, _, rfl⟩ := hc
  exact List.length_take_le L _

theorem split_message_dropLast (L : Nat) (hL : 0 < L) :
    ∀ (n : Nat) (s : List Char), s.length ≤ n →
      ∀ c ∈ (split_message s L).dropLast, c.length = L := by
  intro n
  induction n with
  | zero =>
    intro s hs c hc
    have h : s = [] := List.eq_nil_of_length_eq_zero (Nat.le_zero.mp hs)
    rw [h, split_message_nil] at hc
    simp at hc
  | succ k ih =>
    intro s hs c hc
    by_cases h : s = []
    · rw [h, split_message_nil] at hc
      simp at hc
    · have h1 : 1 ≤ s.length := List.length_pos.mpr h
      rw [split_message_cons s L hL h] at hc
      by_cases h2 : s.drop L = []
      · rw [h2, split_message_nil] at hc
        simp at hc
      · have hne : split_message (s.drop L) L ≠ [] := by
          rw [split_message_cons (s.drop L) L hL h2]
          exact List.cons_ne_nil _ _
        obtain ⟨b, l', hbl⟩ := List.exists_cons_of_ne_nil hne
        rw [hbl] at hc
        rw [show (s.take L :: b :: l').dropLast = s.take L :: (b :: l').dropLast from rfl,
          List.mem_cons] at hc
        rcases hc with rfl | hc
        · have hLs : L ≤ s.length := by
            by_contra hcon
            push_neg at hcon
            exact h2 (List.drop_eq_nil_of_le (Nat.le_of_lt hcon))
          rw [List.length_take]
          omega
        · exact ih (s.drop L) (by rw [List.length_drop]; omega) c (by rw [hbl]; exact hc)

/-! ## The `process_audio` handler (src/main.py lines 105–150) -/

/-- A Telegram voice note: `update.message.voice`.  Only the downloaded
file's `file_size` is consulted by `process_audio`. -/
structure Voice where
  file_size : Nat
deriving DecidableEq

/-- A Telegram audio attachment: `update.message.audio`, with the file's
size and its `file_name` (used for the temp-file extension). -/
structure Audio where
  file_size : Nat
  file_name : List Char
deriving DecidableEq

/-- The parts of `update.message` that `process_audio` reads. -/
structure Message where
  voice : Option Voice
  audio : Option Audio
deriving DecidableEq

/-- Index of the last occurrence of `c` in `l` (Python `str.rfind`),
`none` when absent. -/
def rfind (l : List Char) (c : Char) : Option Nat :=
  match l with
  | [] => none
  | a :: rest =>
    match rfind rest c with
    | some j => some (j + 1)
    | none => if a = c then some 0 else none

/-- The extension component of `os.path.splitext` for a plain file name
(no directory separators): the suffix starting at the last dot, unless every
character before that dot is itself a dot (then there is no extension). -/
def splitext_ext (p : List Char) : List Char :=
  match rfind p '.' with
  | none => []
  | some i => if (p.take i).any (fun a => a ≠ '.') then p.drop i else []

/-- Reply texts sent by `process_audio` (src/main.py lines 118, 122–124, 132–134, 147). -/
def noFileReply : List Char := "Please send a voice message or an audio file.".toList

def tooLargeReply : List Char :=
  "The file is too large. Please send an audio file up to 25MB.".toList

def processingReply : List Char := "Processing your audio. This may take a moment...".toList

/-- `f"An error occurred: \x7bstr(e)\x7d"` for an exception description `e`. -/
def errorReply (e : List Char) : List Char := "An error occurred: ".toList ++ e

/-- Voice notes get extension `".ogg"` (src/main.py line 112). -/
def oggExt : List Char := ".ogg".toList

/-- Lines 110–115: `if update.message.voice: … elif update.message.audio: …`.
Returns the chosen remote file's size together with the temp-file extension,
or `none` when the message carries neither attachment. -/
def chosenFile (m : Message) : Option (Nat × List Char) :=
  match m.voice with
  | some v => some (v.file_size, oggExt)
  | none =>
    match m.audio with
    | some a => some (a.file_size, splitext_ext a.file_name)
    | none => none

/-- Observable events of one `process_audio` run, in program order. -/
inductive Event where
  | reply (text : List Char)
  | createTemp (ext : List Char)
  | downloadFile
  | callTranscribe
  | callImprove
  | callSummarize
  | unlink
deriving DecidableEq

/-- Whether the handler returns normally or an exception escapes it. -/
inductive Outcome where
  | returned
  | raised (e : List Char)
deriving DecidableEq

/-- Oracle environment: the result of each fallible external call —
`Except.error e` models a raised exception with textual description `e`.
`improvement` and `summary` receive the text the code passes them. -/
structure Env where
  download : Except (List Char) Unit
  transcription : Except (List Char) (List Char)
  improvement : List Char → Except (List Char) (List Char)
  summary : List Char → Except (List Char) (List Char)

/-- The `try:` block of src/main.py lines 131–147, including the `except`
clause: sends the processing notice, transcribes, improves, sends the
improved transcription in chunks, summarizes, sends the summary in chunks;
any exception from the three remote calls is caught and answered with a
single error reply.  Returns the events of the block and its outcome
(always `returned`, since the `except Exception` clause catches everything
the block can raise). -/
def try_block (env : Env) : List Event × Outcome :=
  let pre := [Event.reply processingReply, Event.callTranscribe]
  match env.transcription with
  | .error e => (pre ++ [Event.reply (errorReply e)], Outcome.returned)
  | .ok t =>
    match env.improvement t with
    | .error e => (pre ++ [Event.callImprove, Event.reply (errorReply e)], Outcome.returned)
    | .ok imp =>
      let mid := pre ++ [Event.callImprove]
        ++ (split_message imp MAX_MESSAGE_LENGTH).map Event.reply ++ [Event.callSummarize]
      match env.summary imp with
      | .error e => (mid ++ [Event.reply (errorReply e)], Outcome.returned)
      | .ok s =>
        (mid ++ (split_message s MAX_MESSAGE_LENGTH).map Event.reply, Outcome.returned)

/-- `process_audio` (src/main.py lines 105–150).  Selects the attachment
(voice first, else audio), rejects a missing or oversized attachment with a
single reply, otherwise creates the temporary file and downloads into it —
note that the download happens inside the `with` block, *before* the
`try`/`finally`, so a download failure propagates out with the temporary
file still on disk — then runs the `try` block and finally unlinks the
temporary file. -/
def process_audio (m : Message) (env : Env) : List Event × Outcome :=
  match chosenFile m with
  | none => ([Event.reply noFileReply], Outcome.returned)
  | some (size, ext) =>
    if MAX_FILE_SIZE < size then
      ([Event.reply tooLargeReply], Outcome.returned)
    else
      match env.download with
      | .error e => ([Event.createTemp ext, Event.downloadFile], Outcome.raised e)
      | .ok _ =>
        let body := try_block env
        (Event.createTemp ext :: Event.downloadFile :: (body.1 ++ [Event.unlink]), body.2)

/-- Concrete sample inputs used by witnesses and counterexamples. -/
def sampleVoiceMsg : Message := ⟨some ⟨100⟩, none⟩

def sampleNoneMsg : Message := ⟨none, none⟩

def sampleBigMsg : Message := ⟨some ⟨MAX_FILE_SIZE + 1⟩, none⟩

def sampleMaxMsg : Message := ⟨some ⟨MAX_FILE_SIZE⟩, none⟩

def sampleEnvOk : Env :=
  ⟨Except.ok (), Except.ok "t".toList,
    fun _ => Except.ok "hi".toList, fun _ => Except.ok "ok".toList⟩

def sampleEnvDlFail : Env :=
  ⟨Except.error "network error".toList, Except.ok "t".toList,
    fun _ => Except.ok "hi".toList, fun _ => Except.ok "ok".toList⟩

def sampleEnvTrFail : Env :=
  ⟨Except.ok (), Except.error "boom".toList,
    fun _ => Except.ok "hi".toList, fun _ => Except.ok "ok".toList⟩

/-! ## Helper lemmas -/

theorem errorReply_ne_processingReply (e : List Char) : errorReply e ≠ processingReply := by
  intro h
  have h1 : (errorReply e).head? = some 'A' := rfl
  rw [h] at h1
  have h2 : processingReply.head? = some 'P' := rfl
  rw [h1] at h2
  exact absurd h2 (by decide)

/-! ## Claims -/

/-- Claim C2: for every text `T` and chunk size `L > 0`, concatenating the
chunks of `split_message T L` in order yields exactly `T`, every chunk except
possibly the last has length exactly `L`, and every chunk's length is `≤ L`. -/
theorem C2_chunker_spec (T : List Char) (L : Nat) (hL : 0 < L) :
    (split_message T L).flatten = T ∧
    (∀ c ∈ (split_message T L).dropLast, c.length = L) ∧
    (∀ c ∈ split_message T L, c.length ≤ L) :=
  ⟨split_message_flatten L hL T.length T le_rfl,
   split_message_dropLast L hL T.length T le_rfl,
   split_message_length_le T L⟩

/-- Witness for C2 at `T = "hello"`, `L = 3`: chunks are `"hel"`, `"lo"`. -/
theorem C2_chunker_spec_witness :
    0 < 3 ∧ (split_message "hello".toList 3).flatten = "hello".toList ∧
      "hel".toList.length = 3 ∧ "lo".toList.length ≤ 3 :=
  ⟨by decide, (C2_chunker_spec "hello".toList 3 (by decide)).1,
    (C2_chunker_spec "hello".toList 3 (by decide)).2.1 "hel".toList (by decide),
    (C2_chunker_spec "hello".toList 3 (by decide)).2.2 "lo".toList (by decide)⟩

/-- Claim C8: for the empty input text, `split_message` returns an empty
sequence of chunks (for any chunk size). -/
theorem C8_empty_text (L : Nat) : split_message [] L = [] := split_message_nil L

/-- Claim C7: a message with neither a voice note nor an audio attachment is
answered with exactly one rejection reply and nothing else happens: no
temporary file, no download, no remote call, normal return. -/
theorem C7_no_attachment_rejected (env : Env) :
    process_audio ⟨none, none⟩ env = ([Event.reply noFileReply], Outcome.returned) := rfl

/-- Claim C5: an attachment of size `25*1024*1024 + 1` is rejected with the
oversize reply and nothing else happens, while an attachment of size exactly
`25*1024*1024` proceeds past the size check (the first event of the run is
the temporary-file creation, not a rejection reply). -/
theorem C5_size_boundary (m : Message) (env : Env) (f : Nat × List Char)
    (hf : chosenFile m = some f) :
    (f.1 = MAX_FILE_SIZE + 1 →
      process_audio m env = ([Event.reply tooLargeReply], Outcome.returned)) ∧
    (f.1 = MAX_FILE_SIZE →
      (process_audio m env).1.head? = some (Event.createTemp f.2)) := by
  obtain ⟨size, ext⟩ := f
  constructor
  · intro h
    have h' : MAX_FILE_SIZE < size := by
      have : size = MAX_FILE_SIZE + 1 := h
      omega
    simp only [process_audio, hf]
    rw [if_pos h']
  · intro h
    have h' : ¬ MAX_FILE_SIZE < size := by
      have : size = MAX_FILE_SIZE := h
      omega
    simp only [process_audio, hf]
    rw [if_neg h']
    cases henv : env.download <;> rfl

/-- Witness for C5 at a voice note of size `MAX_FILE_SIZE + 1` (rejected)
and one of size `MAX_FILE_SIZE` (proceeds to the download stage). -/
theorem C5_size_boundary_witness :
    chosenFile sampleBigMsg = some (MAX_FILE_SIZE + 1, oggExt) ∧
    process_audio sampleBigMsg sampleEnvOk = ([Event.reply tooLargeReply], Outcome.returned) ∧
    chosenFile sampleMaxMsg = some (MAX_FILE_SIZE, oggExt) ∧
    (process_audio sampleMaxMsg sampleEnvOk).1.head? = some (Event.createTemp oggExt) :=
  ⟨rfl, (C5_size_boundary sampleBigMsg sampleEnvOk (MAX_FILE_SIZE + 1, oggExt) rfl).1 rfl,
    rfl, (C5_size_boundary sampleMaxMsg sampleEnvOk (MAX_FILE_SIZE, oggExt) rfl).2 rfl⟩

/-- Claim C9: on both rejection paths (no attachment, oversized attachment)
the run consists of exactly the single rejection reply — no temporary file is
created, no download and no remote call happens, and the handler returns. -/
theorem C9_rejection_frame (m : Message) (env : Env) :
    (chosenFile m = none →
      process_audio m env = ([Event.reply noFileReply], Outcome.returned)) ∧
    (∀ f, chosenFile m = some f → MAX_FILE_SIZE < f.1 →
      process_audio m env = ([Event.reply tooLargeReply], Outcome.returned)) := by
  constructor
  · intro h
    simp only [process_audio, h]
  · intro f hf hlt
    obtain ⟨size, ext⟩ := f
    simp only [process_audio, hf]
    rw [if_pos hlt]

/-- Witness for C9: the no-attachment message and an oversized voice note. -/
theorem C9_rejection_frame_witness :
    process_audio sampleNoneMsg sampleEnvOk = ([Event.reply noFileReply], Outcome.returned) ∧
    process_audio sampleBigMsg sampleEnvOk = ([Event.reply tooLargeReply], Outcome.returned) :=
  ⟨(C9_rejection_frame sampleNoneMsg sampleEnvOk).1 rfl,
    (C9_rejection_frame sampleBigMsg sampleEnvOk).2 (MAX_FILE_SIZE + 1, oggExt) rfl
      (by omega)⟩

/-- Claim C10: when a message carries both a voice note and an audio
attachment, `process_audio` behaves exactly as if the audio attachment were
absent: the voice note is the chosen file, the temp-file extension is
`".ogg"`, and (when the voice note is within the size limit) the run starts
by creating a temporary file with extension `".ogg"`. -/
theorem C10_voice_over_audio (v : Voice) (a : Audio) (env : Env) :
    process_audio ⟨some v, some a⟩ env = process_audio ⟨some v, none⟩ env ∧
    chosenFile ⟨some v, some a⟩ = some (v.file_size, oggExt) ∧
    (v.file_size ≤ MAX_FILE_SIZE →
      (process_audio ⟨some v, some a⟩ env).1.head? = some (Event.createTemp oggExt)) := by
  refine ⟨rfl, rfl, fun h => ?_⟩
  simp only [process_audio, chosenFile]
  rw [if_neg (Nat.not_lt.mpr h)]
  cases henv : env.download <;> rfl

/-- Witness for C10: a message with both a 100-byte voice note and a
200-byte `"a.mp3"` audio attachment. -/
theorem C10_voice_over_audio_witness :
    process_audio ⟨some ⟨100⟩, some ⟨200, "a.mp3".toList⟩⟩ sampleEnvOk
        = process_audio ⟨some ⟨100⟩, none⟩ sampleEnvOk ∧
    chosenFile ⟨some ⟨100⟩, some ⟨200, "a.mp3".toList⟩⟩ = some (100, oggExt) ∧
    (100 : Nat) ≤ MAX_FILE_SIZE ∧
    (process_audio ⟨some ⟨100⟩, some ⟨200, "a.mp3".toList⟩⟩ sampleEnvOk).1.head?
        = some (Event.createTemp oggExt) :=
  ⟨(C10_voice_over_audio ⟨100⟩ ⟨200, "a.mp3".toList⟩ sampleEnvOk).1,
    (C10_voice_over_audio ⟨100⟩ ⟨200, "a.mp3".toList⟩ sampleEnvOk).2.1,
    by decide,
    (C10_voice_over_audio ⟨100⟩ ⟨200, "a.mp3".toList⟩ sampleEnvOk).2.2 (by decide)⟩

/-- Claim C1 (counterexample): it is not true that whenever the temporary
file is created it is also deleted — with an accepted voice note and a
failing download, the run creates the temporary file but never unlinks it. -/
theorem C1_counterexample :
    ¬ (Event.createTemp oggExt ∈ (process_audio sampleVoiceMsg sampleEnvDlFail).1 →
       Event.unlink ∈ (process_audio sampleVoiceMsg sampleEnvDlFail).1) := by decide

/-- Claim C1 (amended): the temporary file is deleted exactly on the runs
where it was created and the download succeeded; on the download-failure
path the file is created but never deleted, because the download happens
before the `try`/`finally` block is entered. -/
theorem C1_cleanup_iff_download_ok (m : Message) (env : Env) :
    Event.unlink ∈ (process_audio m env).1 ↔
      ((∃ e, Event.createTemp e ∈ (process_audio m env).1) ∧
        env.download = Except.ok ()) := by
  rcases hf : chosenFile m with _ | ⟨size, ext⟩
  · simp [process_audio, hf]
  · simp only [process_audio, hf]
    by_cases hsz : MAX_FILE_SIZE < size
    · rw [if_pos hsz]
      simp
    · rw [if_neg hsz]
      cases henv : env.download with
      | error e => simp
      | ok u =>
        cases u
        constructor
        · intro _
          exact ⟨⟨ext, List.mem_cons_self _ _⟩, rfl⟩
        · intro _
          simp

/-- Claim C3 (counterexample): with an accepted voice note and a failing
download, the user does not receive the generic processing-error reply and
the handler does not return normally. -/
theorem C3_counterexample :
    ¬ (Event.reply (errorReply "network error".toList)
          ∈ (process_audio sampleVoiceMsg sampleEnvDlFail).1 ∧
       (process_audio sampleVoiceMsg sampleEnvDlFail).2 = Outcome.returned) := by decide

/-- Claim C3 (amended): when the download of an accepted attachment fails,
the exception escapes `process_audio` unanswered — the only events are the
temp-file creation and the download attempt, no reply of any kind is sent,
and the handler ends by raising the download exception. -/
theorem C3_download_failure_escapes (m : Message) (env : Env) (f : Nat × List Char)
    (err : List Char) (hf : chosenFile m = some f) (hsz : f.1 ≤ MAX_FILE_SIZE)
    (hdl : env.download = Except.error err) :
    process_audio m env
      = ([Event.createTemp f.2, Event.downloadFile], Outcome.raised err) := by
  obtain ⟨size, ext⟩ := f
  have hsz' : size ≤ MAX_FILE_SIZE := hsz
  simp only [process_audio, hf]
  rw [if_neg (Nat.not_lt.mpr hsz'), hdl]

/-- Witness for the amended C3 at a 100-byte voice note whose download
raises a network error. -/
theorem C3_download_failure_escapes_witness :
    chosenFile sampleVoiceMsg = some (100, oggExt) ∧ (100 : Nat) ≤ MAX_FILE_SIZE ∧
    sampleEnvDlFail.download = Except.error "network error".toList ∧
    process_audio sampleVoiceMsg sampleEnvDlFail
      = ([Event.createTemp oggExt, Event.downloadFile],
          Outcome.raised "network error".toList) :=
  ⟨rfl, by decide, rfl,
    C3_download_failure_escapes sampleVoiceMsg sampleEnvDlFail (100, oggExt)
      "network error".toList rfl (by decide) rfl⟩

/-- Claim C4 (counterexample): in a fully successful run, a refined-transcript
chunk is delivered among the first six events while the Summarization call is
not among them — so Summarization does not complete before the first
refined-transcript chunk is delivered. -/
theorem C4_counterexample :
    Event.reply "hi".toList ∈ ((process_audio sampleVoiceMsg sampleEnvOk).1.take 6) ∧
    Event.callSummarize ∉ ((process_audio sampleVoiceMsg sampleEnvOk).1.take 6) := by decide

/-- Claim C4 (amended): for every successfully processed request the event
order is exactly: temp-file creation and download (Intake), the processing
notice, the Transcribe call, the Refine call, the refined-transcript chunks,
then the Summarize call, then the summary chunks, then the temp-file
deletion.  In particular Summarization completes before any summary chunk is
delivered, but the refined-transcript chunks are delivered before
Summarization is invoked. -/
theorem C4_pipeline_order (m : Message) (env : Env) (f : Nat × List Char)
    (t imp s : List Char) (hf : chosenFile m = some f) (hsz : f.1 ≤ MAX_FILE_SIZE)
    (hdl : env.download = Except.ok ()) (ht : env.transcription = Except.ok t)
    (hi : env.improvement t = Except.ok imp) (hs : env.summary imp = Except.ok s) :
    process_audio m env =
      (Event.createTemp f.2 :: Event.downloadFile :: Event.reply processingReply ::
        Event.callTranscribe :: Event.callImprove ::
        ((split_message imp MAX_MESSAGE_LENGTH).map Event.reply
          ++ Event.callSummarize ::
            ((split_message s MAX_MESSAGE_LENGTH).map Event.reply
              ++ [Event.unlink])), Outcome.returned) := by
  obtain ⟨size, ext⟩ := f
  have hsz' : size ≤ MAX_FILE_SIZE := hsz
  simp only [process_audio, hf]
  rw [if_neg (Nat.not_lt.mpr hsz'), hdl]
  simp [try_block, ht, hi, hs]

/-- Witness for the amended C4 at a 100-byte voice note with all three
remote calls succeeding. -/
theorem C4_pipeline_order_witness :
    chosenFile sampleVoiceMsg = some (100, oggExt) ∧ (100 : Nat) ≤ MAX_FILE_SIZE ∧
    sampleEnvOk.download = Except.ok () ∧
    sampleEnvOk.transcription = Except.ok "t".toList ∧
    sampleEnvOk.improvement "t".toList = Except.ok "hi".toList ∧
    sampleEnvOk.summary "hi".toList = Except.ok "ok".toList ∧
    process_audio sampleVoiceMsg sampleEnvOk =
      (Event.createTemp oggExt :: Event.downloadFile :: Event.reply processingReply ::
        Event.callTranscribe :: Event.callImprove ::
        ((split_message "hi".toList MAX_MESSAGE_LENGTH).map Event.reply
          ++ Event.callSummarize ::
            ((split_message "ok".toList MAX_MESSAGE_LENGTH).map Event.reply
              ++ [Event.unlink])), Outcome.returned) :=
  ⟨rfl, by decide, rfl, rfl, rfl, rfl,
    C4_pipeline_order sampleVoiceMsg sampleEnvOk (100, oggExt) "t".toList "hi".toList
      "ok".toList rfl (by decide) rfl rfl rfl rfl⟩

/-- Claim C6: when the Transcription call raises, the Refine and Summarize
calls are never made, exactly one error reply (carrying the exception's
textual description) is sent, and the run ends with the temporary-file
deletion; the full event list is the stated six-event sequence. -/
theorem C6_transcribe_failure (m : Message) (env : Env) (f : Nat × List Char)
    (err : List Char) (hf : chosenFile m = some f) (hsz : f.1 ≤ MAX_FILE_SIZE)
    (hdl : env.download = Except.ok ()) (ht : env.transcription = Except.error err) :
    process_audio m env =
      ([Event.createTemp f.2, Event.downloadFile, Event.reply processingReply,
        Event.callTranscribe, Event.reply (errorReply err), Event.unlink],
        Outcome.returned) ∧
    Event.callImprove ∉ (process_audio m env).1 ∧
    Event.callSummarize ∉ (process_audio m env).1 ∧
    (process_audio m env).1.count (Event.reply (errorReply err)) = 1 ∧
    (process_audio m env).1.getLast? = some Event.unlink := by
  obtain ⟨size, ext⟩ := f
  have hsz' : size ≤ MAX_FILE_SIZE := hsz
  have heq : process_audio m env =
      ([Event.createTemp ext, Event.downloadFile, Event.reply processingReply,
        Event.callTranscribe, Event.reply (errorReply err), Event.unlink],
        Outcome.returned) := by
    simp only [process_audio, hf]
    rw [if_neg (Nat.not_lt.mpr hsz'), hdl]
    simp [try_block, ht]
  refine ⟨heq, ?_, ?_, ?_, ?_⟩ <;> rw [heq]
  · simp
  · simp
  · simp [List.count_cons, errorReply_ne_processingReply err]
  · rfl

/-- Witness for C6 at a 100-byte voice note whose transcription raises. -/
theorem C6_transcribe_failure_witness :
    chosenFile sampleVoiceMsg = some (100, oggExt) ∧ (100 : Nat) ≤ MAX_FILE_SIZE ∧
    sampleEnvTrFail.download = Except.ok () ∧
    sampleEnvTrFail.transcription = Except.error "boom".toList ∧
    Event.callImprove ∉ (process_audio sampleVoiceMsg sampleEnvTrFail).1 ∧
    (process_audio sampleVoiceMsg sampleEnvTrFail).1.count
      (Event.reply (errorReply "boom".toList)) = 1 :=
  ⟨rfl, by decide, rfl, rfl,
    (C6_transcribe_failure sampleVoiceMsg sampleEnvTrFail (100, oggExt) "boom".toList
      rfl (by decide) rfl rfl).2.1,
    (C6_transcribe_failure sampleVoiceMsg sampleEnvTrFail (100, oggExt) "boom".toList
      rfl (by decide) rfl rfl).2.2.2.1⟩

end Transcripator
